import Mathlib

/-
  Verification of the transfer-impact and ledger-reconciliation engine of the
  USDA Rebudget Tool (React/TypeScript, single-file variant).

  Modelling conventions:
  * JavaScript numbers that hold currency or rates are modelled as exact
    rationals (ℚ).  Cent amounts produced by the engine are integers (ℤ),
    matching the app's invariant that `amount_cents` fields are integer cents.
  * `Math.round x` is modelled as `⌊x + 1/2⌋` (round half toward +∞), the exact
    behaviour of JS `Math.round` on finite values.  `Number.prototype.toFixed 2`
    is modelled as rounding the magnitude to the nearest multiple of 1/100 with
    ties picking the larger value, per the ECMAScript algorithm.
  * Strings are processed as their character lists.  JS `String(n)` for a
    natural number is modelled by `natRepr` (standard decimal notation).
  * Fallible JS code (`throw`) is modelled with `Except String`.
  * Optional chaining through `rates?.wrs_account_numbers?.indirect_costs` and
    `rates?.fa_rate?.rate` is flattened to a single `Option` field, which is
    observationally equivalent for the `?? / ||` default-taking reads the code
    performs.
  * Non-finite JS numbers (NaN, ±Infinity) are modelled, where a claim needs
    them, by the dedicated type `JSNum` and the `computeTransferImpactJS`
    rendering of `computeTransferImpact`; the rest of the development uses the
    finite (ℚ) model.  Division of a nonzero rational by zero (only reachable
    with the pathological policy rate -1) is outside the finite model.
-/

/-- Digit characters of a decimal string prefix: the maximal leading run of
digits, as numeric values (JS `parseInt` consumes exactly this run). -/
def leadDigits : List Char → List ℕ
  | [] => []
  | c :: cs => if c.isDigit then (c.toNat - 48) :: leadDigits cs else []

/-- Value of a big-endian digit list. -/
def digitsVal (ds : List ℕ) : ℕ := ds.foldl (fun a d => 10 * a + d) 0

/-- Value of a big-endian list of digit characters. -/
def charsVal (cs : List Char) : ℕ := digitsVal (cs.map (fun c => c.toNat - 48))

/-- Little-endian decimal digits of `n` (with fuel for structural recursion;
fuel `n` is always enough). -/
def natDigitsRev : ℕ → ℕ → List ℕ
  | 0, _ => []
  | fuel + 1, n => if n = 0 then [] else n % 10 :: natDigitsRev fuel (n / 10)

/-- Decimal notation of a natural number, modelling JS `String(n)`. -/
def natRepr (n : ℕ) : String :=
  if n = 0 then "0" else String.mk ((natDigitsRev n n).reverse.map Nat.digitChar)

/-- `String(k).padStart(2, "0")` for `k < 100`: two-digit decimal. -/
def pad2 (k : ℕ) : String :=
  let s := natRepr k
  if s.length < 2 then "0" ++ s else s

/-- JS `s.split(".")`: fields of a character list separated by `'.'`. -/
def splitDot : List Char → List (List Char)
  | [] => [[]]
  | c :: cs =>
    if c = '.' then [] :: splitDot cs
    else
      match splitDot cs with
      | [] => [[c]]
      | p :: ps => (c :: p) :: ps

/-- JS `parseInt(s, 10)` (no leading-whitespace handling, which the call sites
never need): optional sign, then the maximal digit run; `none` models NaN. -/
def jsParseIntL (cs : List Char) : Option ℤ :=
  match cs with
  | [] => none
  | c :: rest =>
    if c = '-' then
      match leadDigits rest with
      | [] => none
      | ds => some (-(digitsVal ds : ℤ))
    else if c = '+' then
      match leadDigits rest with
      | [] => none
      | ds => some ((digitsVal ds : ℤ))
    else
      match leadDigits (c :: rest) with
      | [] => none
      | ds => some ((digitsVal ds : ℤ))

/-- `f.padEnd(2, "0").slice(0, 2)` on a character list. -/
def padTake2 (l : List Char) : List Char :=
  (if l.length ≥ 2 then l else l ++ List.replicate (2 - l.length) '0').take 2

/-- A JS value that is either a number or a string, the argument type of
`toCents`. -/
inductive JSValue where
  | num (q : ℚ)
  | str (s : String)

/-- `q.toFixed(2)`: sign of the value, then the magnitude rounded to the
nearest hundredth (ties toward the larger candidate, per ECMAScript). -/
def jsToFixed2 (q : ℚ) : String :=
  let n : ℕ := (⌊|q| * 100 + 1 / 2⌋).toNat
  (if q < 0 then "-" else "") ++ natRepr (n / 100) ++ "." ++ pad2 (n % 100)

/-- Core of `toCents` on an already-stringified value: strip every character
that is not a digit, `'.'` or `'-'`; split on `'.'`; parse the integer part
(empty defaults to "0") and the first two (zero-padded) fractional digits; the
fractional cents are added with positive sign regardless of the integer part's
sign, exactly as the source expression does. -/
def toCentsList (cs : List Char) : Option ℤ :=
  let cleaned := cs.filter (fun c => c.isDigit || c == '.' || c == '-')
  let parts := splitDot cleaned
  let ipart := parts.headD []
  let fpart := (parts.drop 1).headD []
  match jsParseIntL (if ipart.isEmpty then ['0'] else ipart) with
  | none => none
  | some ip => some (ip * 100 + ((jsParseIntL (padTake2 fpart)).getD 0))

/-- `toCents(v)` for `v` a number or string; `none` models a NaN result. -/
def toCents (v : JSValue) : Option ℤ :=
  let s := match v with
    | .num q => jsToFixed2 q
    | .str t => t
  toCentsList s.data

/-- `toCents` on a number; the number path always yields a finite result, so
the NaN default is never taken. -/
def toCentsN (q : ℚ) : ℤ := (toCents (.num q)).getD 0

/-- `fromCents(c)`: decimal string with exactly two fractional digits and a
sign only when negative. -/
def fromCents (c : ℤ) : String :=
  (if c < 0 then "-" else "") ++ natRepr (c.natAbs / 100) ++ "." ++ pad2 (c.natAbs % 100)

/-- Magnitude part of JS `Number(s)` string conversion: `digits`, `digits.`,
`digits.digits` or `.digits` (the only shapes the engine feeds it). -/
def jsNumberMag (cs : List Char) : Option ℚ :=
  let p := cs.span (fun c => c.isDigit)
  match p.2 with
  | [] => if p.1.isEmpty then none else some (charsVal p.1)
  | c :: rest2 =>
    if c = '.' then
      let q := rest2.span (fun c => c.isDigit)
      if ¬q.2.isEmpty then none
      else if p.1.isEmpty && q.1.isEmpty then none
      else some ((charsVal p.1 : ℚ) + (charsVal q.1 : ℚ) / (10 : ℚ) ^ q.1.length)
    else none

/-- JS `Number(s)` on a decimal string; `none` models NaN. -/
def jsNumber (s : String) : Option ℚ :=
  match s.data with
  | [] => some 0
  | c :: rest =>
    if c = '-' then (jsNumberMag rest).map (fun q => -q)
    else if c = '+' then jsNumberMag rest
    else jsNumberMag (c :: rest)

/-- `Math.round` on a finite value. -/
def jsRound (q : ℚ) : ℤ := ⌊q + 1 / 2⌋

/-- `mulRate(cents, rate) = Math.round(cents * rate)`. -/
def mulRate (cents : ℤ) (rate : ℚ) : ℤ := jsRound ((cents : ℚ) * rate)

/-- `divByOnePlus(cents, rate) = Math.round(cents / (1 + rate))`. -/
def divByOnePlus (cents : ℤ) (rate : ℚ) : ℤ := jsRound ((cents : ℚ) / (1 + rate))

/-- The policy rate document (`rates.json`), canonical fields only. -/
structure RatesData where
  fa_rate : Option ℚ := none
  indirect_costs : Option String := none
  mtdc_eligible_accounts : Option (List String) := none
deriving Repr, DecidableEq, Inhabited

/-- `rates?.wrs_account_numbers?.indirect_costs || "58960"`: the designated
indirect-cost (F&A) account; JS `||` also takes the default on the falsy empty
string. -/
def fandaAcctOf (rates : Option RatesData) : String :=
  match rates.bind (fun r => r.indirect_costs) with
  | some s => if s = "" then "58960" else s
  | none => "58960"

/-- `isMtdcEligible(acct, rates)`: false on a missing policy; never true for
the designated indirect-cost account; otherwise membership in the eligible
set. -/
def isMtdcEligible (acct : String) (rates : Option RatesData) : Bool :=
  match rates with
  | none => false
  | some r =>
    if acct = fandaAcctOf (some r) then false
    else (r.mtdc_eligible_accounts.getD []).contains acct

/-- `faRateForDest(_destAcct, rates) = Number(rates?.fa_rate?.rate ?? 0)`. -/
def faRateForDest (_destAcct : String) (rates : Option RatesData) : ℚ :=
  (rates.bind (fun r => r.fa_rate)).getD 0

/-- The two transfer modes. -/
inductive TransferMode where
  | budget_total
  | direct_to_dest
deriving Repr, DecidableEq, Inhabited

/-- Result record of `computeTransferImpact`. -/
structure Impact where
  source_out : ℤ
  direct_to_dest : ℤ
  fa_added : ℤ
  eligible : Bool
deriving Repr, DecidableEq

/-- `computeTransferImpact(ratesData, toAcct, amountCents, mode)` in the finite
model; `r ? x : y` on the number `r` is truthiness, i.e. `r ≠ 0`. -/
def computeTransferImpact (ratesData : Option RatesData) (toAcct : String)
    (amountCents : ℤ) (mode : TransferMode) : Except String Impact :=
  let eligible := isMtdcEligible toAcct ratesData
  let r : ℚ := if eligible then faRateForDest toAcct ratesData else 0
  if amountCents ≤ 0 then .error "Amount must be greater than zero"
  else
    match mode with
    | .budget_total =>
      let source_out := amountCents
      let direct_to_dest := if r ≠ 0 then divByOnePlus amountCents r else amountCents
      let fa_added := if r ≠ 0 then source_out - direct_to_dest else 0
      .ok { source_out, direct_to_dest, fa_added, eligible }
    | .direct_to_dest =>
      let direct_to_dest := amountCents
      let fa_added := if r ≠ 0 then mulRate direct_to_dest r else 0
      let source_out := direct_to_dest + fa_added
      .ok { source_out, direct_to_dest, fa_added, eligible }

/-- A JS number including the non-finite values, for claims about NaN and
±Infinity. -/
inductive JSNum where
  | num (q : ℚ)
  | nan
  | inf
  | ninf
deriving Repr, DecidableEq

/-- JS `a <= b`: any comparison with NaN is false. -/
def jsLe : JSNum → JSNum → Bool
  | .num a, .num b => a ≤ b
  | .nan, _ => false
  | _, .nan => false
  | .ninf, _ => true
  | _, .inf => true
  | .inf, _ => false
  | .num _, .ninf => false

/-- JS truthiness of a number: zero and NaN are falsy. -/
def jsTruthy : JSNum → Bool
  | .num q => q ≠ 0
  | .nan => false
  | .inf => true
  | .ninf => true

/-- JS subtraction with non-finite propagation. -/
def jsSub : JSNum → JSNum → JSNum
  | .num a, .num b => .num (a - b)
  | .nan, _ => .nan
  | _, .nan => .nan
  | .inf, .inf => .nan
  | .inf, _ => .inf
  | .ninf, .ninf => .nan
  | .ninf, _ => .ninf
  | .num _, .inf => .ninf
  | .num _, .ninf => .inf

/-- JS addition with non-finite propagation. -/
def jsAdd : JSNum → JSNum → JSNum
  | .num a, .num b => .num (a + b)
  | .nan, _ => .nan
  | _, .nan => .nan
  | .inf, .ninf => .nan
  | .inf, _ => .inf
  | .ninf, .inf => .nan
  | .ninf, _ => .ninf
  | .num _, .inf => .inf
  | .num _, .ninf => .ninf

/-- JS multiplication by a finite rate. -/
def jsMulQ (a : JSNum) (r : ℚ) : JSNum :=
  match a with
  | .num q => .num (q * r)
  | .nan => .nan
  | .inf => if 0 < r then .inf else if r < 0 then .ninf else .nan
  | .ninf => if 0 < r then .ninf else if r < 0 then .inf else .nan

/-- JS division by a finite divisor. -/
def jsDivQ (a : JSNum) (r : ℚ) : JSNum :=
  match a with
  | .num q =>
    if r = 0 then (if q = 0 then .nan else if 0 < q then .inf else .ninf)
    else .num (q / r)
  | .nan => .nan
  | .inf => if r < 0 then .ninf else .inf
  | .ninf => if r < 0 then .inf else .ninf

/-- `Math.round` on a JS number: NaN and ±Infinity are fixed points. -/
def jsRoundJS : JSNum → JSNum
  | .num q => .num ((⌊q + 1 / 2⌋ : ℤ) : ℚ)
  | .nan => .nan
  | .inf => .inf
  | .ninf => .ninf

/-- `mulRate` at JS-number fidelity (the rate argument is the finite policy
rate, as at every call site). -/
def mulRateJS (cents : JSNum) (rate : ℚ) : JSNum := jsRoundJS (jsMulQ cents rate)

/-- `divByOnePlus` at JS-number fidelity. -/
def divByOnePlusJS (cents : JSNum) (rate : ℚ) : JSNum := jsRoundJS (jsDivQ cents (1 + rate))

/-- Result record of `computeTransferImpactJS`. -/
structure ImpactJS where
  source_out : JSNum
  direct_to_dest : JSNum
  fa_added : JSNum
  eligible : Bool
deriving Repr, DecidableEq

/-- `computeTransferImpact` at JS-number fidelity: the requested amount may be
NaN or ±Infinity; the guard `amountCents <= 0` uses JS comparison semantics
(false whenever the amount is NaN). -/
def computeTransferImpactJS (ratesData : Option RatesData) (toAcct : String)
    (amountCents : JSNum) (mode : TransferMode) : Except String ImpactJS :=
  let eligible := isMtdcEligible toAcct ratesData
  let r : ℚ := if eligible then faRateForDest toAcct ratesData else 0
  if jsLe amountCents (.num 0) then .error "Amount must be greater than zero"
  else
    match mode with
    | .budget_total =>
      let source_out := amountCents
      let direct_to_dest := if r ≠ 0 then divByOnePlusJS amountCents r else amountCents
      let fa_added := if r ≠ 0 then jsSub source_out direct_to_dest else .num 0
      .ok { source_out, direct_to_dest, fa_added, eligible }
    | .direct_to_dest =>
      let direct_to_dest := amountCents
      let fa_added := if r ≠ 0 then mulRateJS direct_to_dest r else .num 0
      let source_out := jsAdd direct_to_dest fa_added
      .ok { source_out, direct_to_dest, fa_added, eligible }

/-- One budget line item. -/
structure BudgetRow where
  account : String
  description : String
  current_budget : ℚ
  proposed_budget : ℚ
  encumbrances : Option ℚ := none
  change : Option ℚ := none
deriving Repr, DecidableEq, Inhabited

/-- One queued transfer request. -/
structure TransferItem where
  id : String
  «from» : String
  «to» : String
  amount_cents : ℤ
  mode : TransferMode
deriving Repr, DecidableEq

/-- One audit-trail row.  The source builds `id` from `Date.now()` and
`Math.random()`; that nondeterministic tag is modelled as `""`. -/
structure MappingRow where
  id : String
  «from» : String
  «to» : String
  source_out_cents : ℤ
  direct_to_dest_cents : ℤ
  fa_added_to_fanda_cents : ℤ
  dest_mtdc_eligible : Bool
  mode : TransferMode
deriving Repr, DecidableEq, Inhabited

/-- `encumbrancesFor(acct, snapshot) = Number(row?.encumbrances ?? 0)`. -/
def encumbrancesFor (acct : String) (snapshot : List BudgetRow) : ℚ :=
  match snapshot.find? (fun r => r.account = acct) with
  | some row => row.encumbrances.getD 0
  | none => 0

/-- `baselineSum(rows)`: sum of `toCents(current_budget)` over the non-SUMMARY
rows. -/
def baselineSum (rows : List BudgetRow) : ℤ :=
  ((rows.filter (fun r => r.account ≠ "SUMMARY")).map
    (fun r => toCentsN r.current_budget)).sum

/-- The F&A row `applyOne` creates when the working set lacks one. -/
def fandaDefaultRow (fandaAcct : String) : BudgetRow :=
  { account := fandaAcct, description := "F&A", current_budget := 0,
    proposed_budget := 0, change := some 0, encumbrances := some 0 }

/-- Lines 117-129 of the source: drop SUMMARY rows, copy, and append a fresh
F&A row when none is present. -/
def workingRows (fandaAcct : String) (baselineRows : List BudgetRow) : List BudgetRow :=
  let rows := baselineRows.filter (fun r => r.account ≠ "SUMMARY")
  if (rows.find? (fun r => r.account = fandaAcct)).isSome then rows
  else rows ++ [fandaDefaultRow fandaAcct]

/-- Mutation of the first row matching `p` (the object `Array.prototype.find`
returns), leaving the rest untouched. -/
def updateFirst (p : BudgetRow → Bool) (f : BudgetRow → BudgetRow) : List BudgetRow → List BudgetRow
  | [] => []
  | r :: rs => if p r then f r :: rs else r :: updateFirst p f rs

/-- `applyOne(ratesData, baselineRows, snapshot, fromAcct, toAcct, amountCents,
mode)`: validate, apply one transfer to a working copy, and reconcile. -/
def applyOne (ratesData : Option RatesData) (baselineRows snapshot : List BudgetRow)
    (fromAcct toAcct : String) (amountCents : ℤ) (mode : TransferMode) :
    Except String (List BudgetRow × MappingRow) :=
  let fandaAcct := fandaAcctOf ratesData
  if fromAcct = fandaAcct ∨ toAcct = fandaAcct then
    .error "Direct transfers to or from F&A are not allowed."
  else
    let rows := workingRows fandaAcct baselineRows
    match rows.find? (fun r => r.account = fromAcct), rows.find? (fun r => r.account = toAcct) with
    | none, _ => .error ("Unknown source account " ++ fromAcct)
    | some _, none => .error ("Unknown destination account " ++ toAcct)
    | some fromRow, some _toRow =>
      if fromAcct = toAcct then .error "From and To must differ"
      else
        match computeTransferImpact ratesData toAcct amountCents mode with
        | .error e => .error e
        | .ok imp =>
          let enc := encumbrancesFor fromAcct snapshot
          let fromAfter := toCentsN fromRow.proposed_budget - imp.source_out
          if fromAfter < toCentsN enc then
            .error ("Transfer would breach encumbrance on " ++ fromAcct)
          else if fromAfter < 0 then
            .error ("Transfer would make " ++ fromAcct ++ " negative")
          else
            let rows2 := updateFirst (fun r => r.account = fromAcct)
              (fun r => { r with proposed_budget :=
                r.proposed_budget - (jsNumber (fromCents imp.source_out)).getD 0 }) rows
            let rows3 := updateFirst (fun r => r.account = toAcct)
              (fun r => { r with proposed_budget :=
                r.proposed_budget + (jsNumber (fromCents imp.direct_to_dest)).getD 0 }) rows2
            let rows4 := updateFirst (fun r => r.account = fandaAcct)
              (fun r => { r with proposed_budget :=
                r.proposed_budget + (jsNumber (fromCents imp.fa_added)).getD 0 }) rows3
            let rows5 := rows4.map
              (fun r => { r with change := some (r.proposed_budget - r.current_budget) })
            let logRow : MappingRow :=
              { id := "", «from» := fromAcct, «to» := toAcct,
                source_out_cents := imp.source_out,
                direct_to_dest_cents := imp.direct_to_dest,
                fa_added_to_fanda_cents := imp.fa_added,
                dest_mtdc_eligible := imp.eligible, mode := mode }
            let before := baselineSum baselineRows
            let after := baselineSum rows5
            if before ≠ after then .error "Totals do not reconcile after transfer"
            else .ok (rows5, logRow)

/-- Result of a batch projection. -/
structure ProjResult where
  finalRows : List BudgetRow
  mapping : List MappingRow
deriving Repr, DecidableEq

/-- The fold inside `projectWithTransfers`. -/
def projectLoop (ratesData : Option RatesData) (snapshot : List BudgetRow) :
    List BudgetRow → List MappingRow → List TransferItem → Except String ProjResult
  | working, logs, [] => .ok { finalRows := working, mapping := logs }
  | working, logs, t :: ts =>
    match applyOne ratesData working snapshot t.«from» t.«to» t.amount_cents t.mode with
    | .error e => .error e
    | .ok (rows, log) => projectLoop ratesData snapshot rows (logs ++ [log]) ts

/-- `projectWithTransfers(ratesData, baselineRows, snapshot, transfers)`: fold
the transfers left to right through `applyOne`, collecting the audit trail. -/
def projectWithTransfers (ratesData : Option RatesData) (baselineRows snapshot : List BudgetRow)
    (transfers : List TransferItem) : Except String ProjResult :=
  projectLoop ratesData snapshot baselineRows [] transfers

/-
  Heap-level rendering of the engine, for the frame property "the engine never
  mutates its input arguments".  Row objects live in a store (a list of cells);
  a row array is a list of cell indices.  `{...r}` spread-copies allocate fresh
  cells at the end of the store, `rows.push` allocates one more, and the
  assignments to `proposed_budget` / `change` are `List.set` at the indices the
  `find` calls returned.  The store is returned even on `throw`, since a JS
  exception leaves the heap as is.
-/

/-- Read a cell of the store. -/
def readCell (st : List BudgetRow) (i : ℕ) : BudgetRow := st.getD i default

/-- Continuation of the heap-level `applyOne` once the working copies are
allocated: `st2` is the store after the copies (and the possible F&A push),
`rowIds2` the cell indices of the working rows, `fandaId` the cell index of
the F&A row. -/
def applyOneHCore (ratesData : Option RatesData) (baselineIds snapshotIds : List ℕ)
    (fromAcct toAcct : String) (amountCents : ℤ) (mode : TransferMode)
    (st2 : List BudgetRow) (rowIds2 : List ℕ) (fandaId : ℕ) :
    List BudgetRow × Except String (List ℕ × MappingRow) :=
  match rowIds2.find? (fun i => (readCell st2 i).account = fromAcct),
        rowIds2.find? (fun i => (readCell st2 i).account = toAcct) with
    | none, _ => (st2, .error ("Unknown source account " ++ fromAcct))
    | some _, none => (st2, .error ("Unknown destination account " ++ toAcct))
    | some fromId, some toId =>
      if fromAcct = toAcct then (st2, .error "From and To must differ")
      else
        match computeTransferImpact ratesData toAcct amountCents mode with
        | .error e => (st2, .error e)
        | .ok imp =>
          let enc :=
            match snapshotIds.find? (fun i => (readCell st2 i).account = fromAcct) with
            | some i => (readCell st2 i).encumbrances.getD 0
            | none => 0
          let fromAfter := toCentsN (readCell st2 fromId).proposed_budget - imp.source_out
          if fromAfter < toCentsN enc then
            (st2, .error ("Transfer would breach encumbrance on " ++ fromAcct))
          else if fromAfter < 0 then
            (st2, .error ("Transfer would make " ++ fromAcct ++ " negative"))
          else
            let st3 := st2.set fromId
              { readCell st2 fromId with proposed_budget :=
                (readCell st2 fromId).proposed_budget - (jsNumber (fromCents imp.source_out)).getD 0 }
            let st4 := st3.set toId
              { readCell st3 toId with proposed_budget :=
                (readCell st3 toId).proposed_budget + (jsNumber (fromCents imp.direct_to_dest)).getD 0 }
            let st5 := st4.set fandaId
              { readCell st4 fandaId with proposed_budget :=
                (readCell st4 fandaId).proposed_budget + (jsNumber (fromCents imp.fa_added)).getD 0 }
            let st6 := rowIds2.foldl
              (fun s i =>
                let r := readCell s i
                s.set i { r with change := some (r.proposed_budget - r.current_budget) }) st5
            let logRow : MappingRow :=
              { id := "", «from» := fromAcct, «to» := toAcct,
                source_out_cents := imp.source_out,
                direct_to_dest_cents := imp.direct_to_dest,
                fa_added_to_fanda_cents := imp.fa_added,
                dest_mtdc_eligible := imp.eligible, mode := mode }
            let before :=
              ((baselineIds.filter (fun i => (readCell st6 i).account ≠ "SUMMARY")).map
                (fun i => toCentsN (readCell st6 i).current_budget)).sum
            let after :=
              ((rowIds2.filter (fun i => (readCell st6 i).account ≠ "SUMMARY")).map
                (fun i => toCentsN (readCell st6 i).current_budget)).sum
            if before ≠ after then (st6, .error "Totals do not reconcile after transfer")
            else (st6, .ok (rowIds2, logRow))

/-- Heap-level `applyOne`: takes the store and the cell indices of the baseline
rows and of the snapshot rows; returns the final store alongside the result.
The spread-copies allocate fresh cells at `st.length, st.length+1, ...`; a
missing F&A row is pushed as one more fresh cell. -/
def applyOneH (ratesData : Option RatesData) (st : List BudgetRow)
    (baselineIds snapshotIds : List ℕ) (fromAcct toAcct : String)
    (amountCents : ℤ) (mode : TransferMode) :
    List BudgetRow × Except String (List ℕ × MappingRow) :=
  let fandaAcct := fandaAcctOf ratesData
  if fromAcct = fandaAcct ∨ toAcct = fandaAcct then
    (st, .error "Direct transfers to or from F&A are not allowed.")
  else
    let keptIds := baselineIds.filter (fun i => (readCell st i).account ≠ "SUMMARY")
    let st1 := st ++ keptIds.map (fun i => readCell st i)
    let rowIds := List.range' st.length keptIds.length
    match rowIds.find? (fun i => (readCell st1 i).account = fandaAcct) with
    | some j =>
      applyOneHCore ratesData baselineIds snapshotIds fromAcct toAcct amountCents mode
        st1 rowIds j
    | none =>
      applyOneHCore ratesData baselineIds snapshotIds fromAcct toAcct amountCents mode
        (st1 ++ [fandaDefaultRow fandaAcct]) (rowIds ++ [st1.length]) st1.length

/-- Heap-level projection fold. -/
def projectLoopH (ratesData : Option RatesData) (snapshotIds : List ℕ) :
    List BudgetRow → List ℕ → List MappingRow → List TransferItem →
    List BudgetRow × Except String (List ℕ × List MappingRow)
  | st, workingIds, logs, [] => (st, .ok (workingIds, logs))
  | st, workingIds, logs, t :: ts =>
    match applyOneH ratesData st workingIds snapshotIds t.«from» t.«to» t.amount_cents t.mode with
    | (st', .error e) => (st', .error e)
    | (st', .ok (ids', log)) => projectLoopH ratesData snapshotIds st' ids' (logs ++ [log]) ts

/-- Heap-level `projectWithTransfers`. -/
def projectWithTransfersH (ratesData : Option RatesData) (st : List BudgetRow)
    (baselineIds snapshotIds : List ℕ) (transfers : List TransferItem) :
    List BudgetRow × Except String (List ℕ × List MappingRow) :=
  projectLoopH ratesData snapshotIds st baselineIds [] transfers

/-- The mock policy document the app loads for quick testing (rate 0.276,
indirect-cost account 58960, three MTDC-eligible accounts). -/
def mockRates : RatesData :=
  { fa_rate := some (276 / 1000),
    indirect_costs := some "58960",
    mtdc_eligible_accounts := some ["51110", "52000", "53000"] }

/-- The mock baseline budget the app loads for quick testing. -/
def mockBudget : List BudgetRow :=
  [ { account := "53800", description := "Student Aid", current_budget := 50000,
      proposed_budget := 50000, encumbrances := some 0 },
    { account := "51110", description := "PI Summer", current_budget := 0,
      proposed_budget := 0, encumbrances := some 0 },
    { account := "52000", description := "Supplies", current_budget := 20000,
      proposed_budget := 20000, encumbrances := some 0 },
    { account := "58960", description := "F&A", current_budget := 30000,
      proposed_budget := 30000, encumbrances := some 0 } ]

/-- A baseline like the mock one but with no row for the indirect-cost
account, so `applyOne` has to create the F&A row. -/
def w9Budget : List BudgetRow :=
  [ { account := "53800", description := "Student Aid", current_budget := 50000,
      proposed_budget := 50000, encumbrances := some 0 },
    { account := "51110", description := "PI Summer", current_budget := 0,
      proposed_budget := 0, encumbrances := some 0 },
    { account := "52000", description := "Supplies", current_budget := 20000,
      proposed_budget := 20000, encumbrances := some 0 } ]

/-- A one-cent transfer from 52000 to the MTDC-ineligible account 53800. -/
def w9T : TransferItem :=
  { id := "t1", «from» := "52000", «to» := "53800", amount_cents := 1,
    mode := .direct_to_dest }

/-- The rows `applyOne (some mockRates) w9Budget w9Budget "52000" "53800" 1
.direct_to_dest` returns. -/
def w9RowsOut : List BudgetRow :=
  [ { account := "53800", description := "Student Aid", current_budget := 50000,
      proposed_budget := 5000001/100, encumbrances := some 0, change := some (1/100) },
    { account := "51110", description := "PI Summer", current_budget := 0,
      proposed_budget := 0, encumbrances := some 0, change := some 0 },
    { account := "52000", description := "Supplies", current_budget := 20000,
      proposed_budget := 1999999/100, encumbrances := some 0, change := some (-1/100) },
    { account := "58960", description := "F&A", current_budget := 0,
      proposed_budget := 0, encumbrances := some 0, change := some 0 } ]

/-- The audit row of that transfer. -/
def w9Log : MappingRow :=
  { id := "", «from» := "52000", «to» := "53800", source_out_cents := 1,
    direct_to_dest_cents := 1, fa_added_to_fanda_cents := 0,
    dest_mtdc_eligible := false, mode := .direct_to_dest }

/-- A pathological policy that designates "SUMMARY" as the indirect-cost
account. -/
def sRates : RatesData := { indirect_costs := some "SUMMARY" }

/-- A two-row baseline for the pathological policy. -/
def sBudget : List BudgetRow :=
  [ { account := "A", description := "a", current_budget := 0,
      proposed_budget := 10, encumbrances := some 0 },
    { account := "B", description := "b", current_budget := 0,
      proposed_budget := 0, encumbrances := some 0 } ]

/-- The rows `applyOne (some sRates) sBudget sBudget "A" "B" 1 .direct_to_dest`
returns: the freshly created F&A row carries the account name "SUMMARY". -/
def sRowsOut : List BudgetRow :=
  [ { account := "A", description := "a", current_budget := 0,
      proposed_budget := 999/100, encumbrances := some 0, change := some (999/100) },
    { account := "B", description := "b", current_budget := 0,
      proposed_budget := 1/100, encumbrances := some 0, change := some (1/100) },
    { account := "SUMMARY", description := "F&A", current_budget := 0,
      proposed_budget := 0, encumbrances := some 0, change := some 0 } ]

/-- The audit row of that pathological transfer. -/
def sLog : MappingRow :=
  { id := "", «from» := "A", «to» := "B", source_out_cents := 1,
    direct_to_dest_cents := 1, fa_added_to_fanda_cents := 0,
    dest_mtdc_eligible := false, mode := .direct_to_dest }

/-
  Helper lemmas: string indexing, concrete evaluations of the currency codec,
  and concrete evaluations of the impact calculator.
-/

lemma string_ne_of_nth (s t : String) (n : ℕ) (h : s.data[n]? ≠ t.data[n]?) : s ≠ t :=
  fun e => h (by rw [e])

lemma data_nth_append_left (a b : String) (n : ℕ) (h : n < a.data.length) :
    (a ++ b).data[n]? = a.data[n]? := by
  rw [String.data_append]
  exact List.getElem?_append_left h

lemma negMsg_nth (f : String) (n : ℕ) (h : n < 20) :
    ("Transfer would make " ++ f ++ " negative").data[n]? =
      "Transfer would make ".data[n]? := by
  have h1 : n < "Transfer would make ".data.length := by
    have : "Transfer would make ".data.length = 20 := by decide
    omega
  have h2 : n < ("Transfer would make " ++ f).data.length := by
    rw [String.data_append, List.length_append]
    omega
  rw [data_nth_append_left _ _ _ h2, data_nth_append_left _ _ _ h1]

lemma tc0 : toCentsN 0 = 0 := by
  have h : jsToFixed2 (0 : ℚ) = "0.00" := by unfold jsToFixed2; norm_num; decide
  simp only [toCentsN, toCents, h]
  decide

lemma tc10 : toCentsN 10 = 1000 := by
  have h : jsToFixed2 (10 : ℚ) = "10.00" := by unfold jsToFixed2; norm_num; decide
  simp only [toCentsN, toCents, h]
  decide

lemma tc20000 : toCentsN 20000 = 2000000 := by
  have h : jsToFixed2 (20000 : ℚ) = "20000.00" := by unfold jsToFixed2; norm_num; decide
  simp only [toCentsN, toCents, h]
  decide

lemma tc50000 : toCentsN 50000 = 5000000 := by
  have h : jsToFixed2 (50000 : ℚ) = "50000.00" := by unfold jsToFixed2; norm_num; decide
  simp only [toCentsN, toCents, h]
  decide

lemma jn0 : (jsNumber (fromCents 0)).getD 0 = (0 : ℚ) := by
  have h : fromCents 0 = "0.00" := by decide
  rw [h]
  simp +decide [jsNumber, jsNumberMag, List.span, List.span.loop, charsVal, digitsVal]

lemma jn1 : (jsNumber (fromCents 1)).getD 0 = (1 / 100 : ℚ) := by
  have h : fromCents 1 = "0.01" := by decide
  rw [h]
  simp +decide [jsNumber, jsNumberMag, List.span, List.span.loop, charsVal, digitsVal]

lemma fanda_mock : fandaAcctOf (some mockRates) = "58960" := by decide

lemma fanda_s : fandaAcctOf (some sRates) = "SUMMARY" := by decide

lemma imp_53800 : computeTransferImpact (some mockRates) "53800" 1 .direct_to_dest
    = .ok { source_out := 1, direct_to_dest := 1, fa_added := 0, eligible := false } := by
  unfold computeTransferImpact
  simp +decide [isMtdcEligible, fandaAcctOf, mockRates]

lemma imp_B : computeTransferImpact (some sRates) "B" 1 .direct_to_dest
    = .ok { source_out := 1, direct_to_dest := 1, fa_added := 0, eligible := false } := by
  unfold computeTransferImpact
  simp +decide [isMtdcEligible, fandaAcctOf, sRates]

lemma computeTransferImpact_error_msg {rates toAcct a m e}
    (h : computeTransferImpact rates toAcct a m = .error e) :
    e = "Amount must be greater than zero" := by
  unfold computeTransferImpact at h
  split at h
  · exact (Except.error.inj h).symm
  · split at h <;> simp at h

lemma applyOne_w9 : applyOne (some mockRates) w9Budget w9Budget "52000" "53800" 1 .direct_to_dest
    = .ok (w9RowsOut, w9Log) := by
  unfold applyOne
  norm_num +decide [workingRows, fanda_mock, w9Budget, encumbrancesFor, imp_53800,
    tc0, tc20000, tc50000, jn0, jn1, updateFirst, baselineSum, w9RowsOut, w9Log,
    fandaDefaultRow]

lemma proj_w9 : projectWithTransfers (some mockRates) w9Budget w9Budget [w9T]
    = .ok { finalRows := w9RowsOut, mapping := [w9Log] } := by
  simp [projectWithTransfers, projectLoop, w9T, applyOne_w9]

lemma applyOne_s : applyOne (some sRates) sBudget sBudget "A" "B" 1 .direct_to_dest
    = .ok (sRowsOut, sLog) := by
  unfold applyOne
  norm_num +decide [workingRows, fanda_s, sBudget, encumbrancesFor, imp_B,
    tc0, tc10, jn0, jn1, updateFirst, baselineSum, sRowsOut, sLog, fandaDefaultRow]

/-
  Conservation of the non-SUMMARY current-budget total.
-/

lemma baselineSum_nil : baselineSum [] = 0 := rfl

lemma baselineSum_cons (r : BudgetRow) (l : List BudgetRow) :
    baselineSum (r :: l) =
      (if r.account ≠ "SUMMARY" then toCentsN r.current_budget else 0) + baselineSum l := by
  by_cases h : r.account = "SUMMARY" <;> simp [baselineSum, List.filter_cons, h]

lemma baselineSum_filter (l : List BudgetRow) :
    baselineSum (l.filter (fun r => r.account ≠ "SUMMARY")) = baselineSum l := by
  induction l with
  | nil => rfl
  | cons r t ih =>
    rw [List.filter_cons]
    by_cases h : r.account = "SUMMARY"
    · rw [if_neg (by simp [h]), ih, baselineSum_cons, if_neg (not_not_intro h), zero_add]
    · rw [if_pos (by simp [h]), baselineSum_cons, baselineSum_cons, ih]

lemma baselineSum_append (l₁ l₂ : List BudgetRow) :
    baselineSum (l₁ ++ l₂) = baselineSum l₁ + baselineSum l₂ := by
  induction l₁ with
  | nil => simp [baselineSum_nil]
  | cons r t ih => simp only [List.cons_append, baselineSum_cons, ih]; ring

lemma baselineSum_updateFirst (p : BudgetRow → Bool) (f : BudgetRow → BudgetRow)
    (l : List BudgetRow)
    (hacc : ∀ r, (f r).account = r.account)
    (hcur : ∀ r, (f r).current_budget = r.current_budget) :
    baselineSum (updateFirst p f l) = baselineSum l := by
  induction l with
  | nil => rfl
  | cons r t ih =>
    by_cases hp : p r <;>
      simp [updateFirst, hp, baselineSum_cons, ih, hacc, hcur]

lemma baselineSum_map (g : BudgetRow → BudgetRow) (l : List BudgetRow)
    (hacc : ∀ r, (g r).account = r.account)
    (hcur : ∀ r, (g r).current_budget = r.current_budget) :
    baselineSum (l.map g) = baselineSum l := by
  induction l with
  | nil => rfl
  | cons r t ih => simp [baselineSum_cons, ih, hacc, hcur]

lemma baselineSum_workingRows (fandaAcct : String) (l : List BudgetRow) :
    baselineSum (workingRows fandaAcct l) = baselineSum l := by
  unfold workingRows
  dsimp only
  split
  · exact baselineSum_filter l
  · rw [baselineSum_append, baselineSum_filter]
    have h1 : baselineSum [fandaDefaultRow fandaAcct] = 0 := by
      by_cases h : fandaAcct = "SUMMARY" <;>
        simp [baselineSum_cons, baselineSum_nil, fandaDefaultRow, h, tc0]
    rw [h1, add_zero]

lemma applyOne_ok_sum {rates : Option RatesData} {baseline snapshot : List BudgetRow}
    {f t : String} {a : ℤ} {m : TransferMode} {rows : List BudgetRow} {log : MappingRow}
    (h : applyOne rates baseline snapshot f t a m = .ok (rows, log)) :
    baselineSum rows = baselineSum baseline := by
  unfold applyOne at h
  dsimp only at h
  by_cases h1 : f = fandaAcctOf rates ∨ t = fandaAcctOf rates
  · rw [if_pos h1] at h
    exact absurd h (by simp)
  · rw [if_neg h1] at h
    rcases hf : List.find? (fun r => r.account = f) (workingRows (fandaAcctOf rates) baseline)
      with _ | fromRow <;> rw [hf] at h
    · exact absurd h (by simp)
    · rcases ht : List.find? (fun r => r.account = t) (workingRows (fandaAcctOf rates) baseline)
        with _ | toRow <;> rw [ht] at h
      · exact absurd h (by simp)
      · dsimp only at h
        by_cases h2 : f = t
        · rw [if_pos h2] at h
          exact absurd h (by simp)
        · rw [if_neg h2] at h
          rcases hi : computeTransferImpact rates t a m with e | imp <;> rw [hi] at h
          · exact absurd h (by simp)
          · dsimp only at h
            by_cases h3 : toCentsN fromRow.proposed_budget - imp.source_out <
                toCentsN (encumbrancesFor f snapshot)
            · rw [if_pos h3] at h
              exact absurd h (by simp)
            · rw [if_neg h3] at h
              by_cases h4 : toCentsN fromRow.proposed_budget - imp.source_out < 0
              · rw [if_pos h4] at h
                exact absurd h (by simp)
              · rw [if_neg h4] at h
                split at h
                · exact absurd h (by simp)
                · next hne =>
                  rw [Except.ok.injEq, Prod.mk.injEq] at h
                  rw [← h.1]
                  exact (not_ne_iff.mp hne).symm

lemma applyOne_ne_reconcile (rates : Option RatesData) (baseline snapshot : List BudgetRow)
    (f t : String) (a : ℤ) (m : TransferMode) :
    applyOne rates baseline snapshot f t a m ≠ .error "Totals do not reconcile after transfer" := by
  intro h
  unfold applyOne at h
  dsimp only at h
  by_cases h1 : f = fandaAcctOf rates ∨ t = fandaAcctOf rates
  · rw [if_pos h1] at h
    exact absurd (Except.error.inj h) (by decide)
  · rw [if_neg h1] at h
    rcases hf : List.find? (fun r => r.account = f) (workingRows (fandaAcctOf rates) baseline)
      with _ | fromRow <;> rw [hf] at h
    · exact string_ne_of_nth _ _ 0
        (by rw [data_nth_append_left _ _ 0 (by decide)]; decide) (Except.error.inj h)
    · rcases ht : List.find? (fun r => r.account = t) (workingRows (fandaAcctOf rates) baseline)
        with _ | toRow <;> rw [ht] at h
      · exact string_ne_of_nth _ _ 0
          (by rw [data_nth_append_left _ _ 0 (by decide)]; decide) (Except.error.inj h)
      · dsimp only at h
        by_cases h2 : f = t
        · rw [if_pos h2] at h
          exact absurd (Except.error.inj h) (by decide)
        · rw [if_neg h2] at h
          rcases hi : computeTransferImpact rates t a m with e | imp <;> rw [hi] at h
          · have h5 := Except.error.inj h
            rw [computeTransferImpact_error_msg hi] at h5
            exact absurd h5 (by decide)
          · dsimp only at h
            by_cases h3 : toCentsN fromRow.proposed_budget - imp.source_out <
                toCentsN (encumbrancesFor f snapshot)
            · rw [if_pos h3] at h
              exact string_ne_of_nth _ _ 1
                (by rw [data_nth_append_left _ _ 1 (by decide)]; decide) (Except.error.inj h)
            · rw [if_neg h3] at h
              by_cases h4 : toCentsN fromRow.proposed_budget - imp.source_out < 0
              · rw [if_pos h4] at h
                exact string_ne_of_nth _ _ 1
                  (by rw [negMsg_nth f 1 (by norm_num)]; decide) (Except.error.inj h)
              · rw [if_neg h4] at h
                split at h
                · next hne =>
                  apply hne
                  simp [baselineSum_map, baselineSum_updateFirst, baselineSum_workingRows]
                · simp at h

lemma projectLoop_sum (rates : Option RatesData) (snapshot : List BudgetRow) :
    ∀ (ts : List TransferItem) (working : List BudgetRow) (logs : List MappingRow)
      (out : ProjResult),
      projectLoop rates snapshot working logs ts = .ok out →
      baselineSum out.finalRows = baselineSum working := by
  intro ts
  induction ts with
  | nil =>
    intro working logs out h
    unfold projectLoop at h
    rw [Except.ok.injEq] at h
    rw [← h]
  | cons tr ts ih =>
    intro working logs out h
    unfold projectLoop at h
    rcases ha : applyOne rates working snapshot tr.«from» tr.«to» tr.amount_cents tr.mode
      with e | pr <;> rw [ha] at h
    · simp at h
    · rcases pr with ⟨rows, log⟩
      dsimp only at h
      rw [ih rows (logs ++ [log]) out h]
      exact applyOne_ok_sum ha

/-- C1: for every policy, baseline, snapshot and transfer sequence on which
`projectWithTransfers` succeeds, the sum in cents of `current_budget` over the
non-SUMMARY rows of the returned `finalRows` equals that sum over the input
baseline rows; and `applyOne` never returns the "Totals do not reconcile after
transfer" (ReconciliationFailure) error, so the reconciliation safety net is
unreachable. -/
theorem conservation_of_current_budget :
    (∀ (rates : Option RatesData) (baseline snapshot : List BudgetRow)
        (transfers : List TransferItem) (out : ProjResult),
        projectWithTransfers rates baseline snapshot transfers = .ok out →
        baselineSum out.finalRows = baselineSum baseline) ∧
    (∀ (rates : Option RatesData) (baseline snapshot : List BudgetRow)
        (f t : String) (a : ℤ) (m : TransferMode),
        applyOne rates baseline snapshot f t a m ≠
          .error "Totals do not reconcile after transfer") :=
  ⟨fun rates baseline snapshot transfers out h =>
    projectLoop_sum rates snapshot transfers baseline [] out h,
   applyOne_ne_reconcile⟩

/-- Witness for C1: a successful one-transfer projection over a concrete
baseline preserves the non-SUMMARY current-budget total. -/
theorem conservation_of_current_budget_witness :
    baselineSum w9RowsOut = baselineSum w9Budget :=
  conservation_of_current_budget.1 (some mockRates) w9Budget w9Budget [w9T]
    { finalRows := w9RowsOut, mapping := [w9Log] } proj_w9

/-- C2: in mode `budget_total` with a positive amount, an MTDC-eligible
destination with rate `r > 0` gives `source_out = amount`,
`direct_to_dest = round(amount / (1 + r))` and
`fa_added = amount - direct_to_dest`; an ineligible destination gives
`direct_to_dest = amount` and `fa_added = 0`; and with rate 0.276 and amount
2000000 cents the split is 1567398 / 432602 / 2000000. -/
theorem computeTransferImpact_budget_total (rates : Option RatesData) (toAcct : String)
    (a : ℤ) (ha : 0 < a) :
    (isMtdcEligible toAcct rates = true → 0 < faRateForDest toAcct rates →
      computeTransferImpact rates toAcct a .budget_total =
        .ok { source_out := a,
              direct_to_dest := ⌊(a : ℚ) / (1 + faRateForDest toAcct rates) + 1 / 2⌋,
              fa_added := a - ⌊(a : ℚ) / (1 + faRateForDest toAcct rates) + 1 / 2⌋,
              eligible := true }) ∧
    (isMtdcEligible toAcct rates = false →
      computeTransferImpact rates toAcct a .budget_total =
        .ok { source_out := a, direct_to_dest := a, fa_added := 0, eligible := false }) ∧
    computeTransferImpact (some mockRates) "51110" 2000000 .budget_total =
      .ok { source_out := 2000000, direct_to_dest := 1567398, fa_added := 432602,
            eligible := true } := by
  refine ⟨?_, ?_, ?_⟩
  · intro he hr
    unfold computeTransferImpact
    simp [he, hr.ne', not_le.mpr ha, divByOnePlus, jsRound]
  · intro he
    unfold computeTransferImpact
    simp [he, not_le.mpr ha]
  · unfold computeTransferImpact
    simp +decide [isMtdcEligible, fandaAcctOf, faRateForDest, mockRates]
    norm_num [divByOnePlus, jsRound]

/-- Witness for C2: the concrete budget_total scenario at rate 0.276 and
amount 2000000 cents. -/
theorem computeTransferImpact_budget_total_witness :
    computeTransferImpact (some mockRates) "51110" 2000000 .budget_total =
      .ok { source_out := 2000000, direct_to_dest := 1567398, fa_added := 432602,
            eligible := true } :=
  (computeTransferImpact_budget_total (some mockRates) "51110" 2000000 (by decide)).2.2

/-- C3: in mode `direct_to_dest` with a positive amount, an MTDC-eligible
destination with rate `r > 0` gives `direct_to_dest = amount`,
`fa_added = round(amount * r)` and `source_out = amount + fa_added`; an
ineligible destination gives `fa_added = 0` and `source_out = amount`; with
rate 0.276 and amount 1000000 this is 276000 / 1276000, and an ineligible
destination at 500000 gives 0 / 500000. -/
theorem computeTransferImpact_direct_to_dest (rates : Option RatesData) (toAcct : String)
    (a : ℤ) (ha : 0 < a) :
    (isMtdcEligible toAcct rates = true → 0 < faRateForDest toAcct rates →
      computeTransferImpact rates toAcct a .direct_to_dest =
        .ok { source_out := a + ⌊(a : ℚ) * faRateForDest toAcct rates + 1 / 2⌋,
              direct_to_dest := a,
              fa_added := ⌊(a : ℚ) * faRateForDest toAcct rates + 1 / 2⌋,
              eligible := true }) ∧
    (isMtdcEligible toAcct rates = false →
      computeTransferImpact rates toAcct a .direct_to_dest =
        .ok { source_out := a, direct_to_dest := a, fa_added := 0, eligible := false }) ∧
    computeTransferImpact (some mockRates) "51110" 1000000 .direct_to_dest =
      .ok { source_out := 1276000, direct_to_dest := 1000000, fa_added := 276000,
            eligible := true } ∧
    computeTransferImpact (some mockRates) "53800" 500000 .direct_to_dest =
      .ok { source_out := 500000, direct_to_dest := 500000, fa_added := 0,
            eligible := false } := by
  refine ⟨?_, ?_, ?_, ?_⟩
  · intro he hr
    unfold computeTransferImpact
    simp [he, hr.ne', not_le.mpr ha, mulRate, jsRound]
  · intro he
    unfold computeTransferImpact
    simp [he, not_le.mpr ha]
  · unfold computeTransferImpact
    simp +decide [isMtdcEligible, fandaAcctOf, faRateForDest, mockRates]
    norm_num [mulRate, jsRound]
  · unfold computeTransferImpact
    simp +decide [isMtdcEligible, fandaAcctOf, mockRates]

/-- Witness for C3: the concrete direct_to_dest scenario at rate 0.276 and
amount 1000000 cents. -/
theorem computeTransferImpact_direct_to_dest_witness :
    computeTransferImpact (some mockRates) "51110" 1000000 .direct_to_dest =
      .ok { source_out := 1276000, direct_to_dest := 1000000, fa_added := 276000,
            eligible := true } :=
  (computeTransferImpact_direct_to_dest (some mockRates) "51110" 1000000 (by decide)).2.2.1

/-- C4 (evaluation at the failing input): `fromCents (-1)` is "-0.01", but
`toCents` parses it back to +1, not -1 — the parsed fractional cents are added
with positive sign regardless of the integer part's sign, so the round-trip
fails on negative amounts that are not whole dollars. -/
theorem toCents_fromCents_neg_one :
    fromCents (-1) = "-0.01" ∧ toCents (.str (fromCents (-1))) = some 1 := by decide

/-- C5: `isMtdcEligible` is false on a missing policy; false for the
designated indirect-cost account even when that account is in the eligible
set; and otherwise true exactly when the account is in the eligible set and
differs from the indirect-cost account. -/
theorem isMtdcEligible_exclusion (acct : String) :
    isMtdcEligible acct none = false ∧
    (∀ r : RatesData, acct = fandaAcctOf (some r) → isMtdcEligible acct (some r) = false) ∧
    (∀ r : RatesData, isMtdcEligible acct (some r) = true ↔
      acct ≠ fandaAcctOf (some r) ∧
        (r.mtdc_eligible_accounts.getD []).contains acct = true) := by
  refine ⟨rfl, ?_, ?_⟩
  · intro r h
    unfold isMtdcEligible
    dsimp only
    rw [if_pos h]
  · intro r
    unfold isMtdcEligible
    dsimp only
    by_cases h : acct = fandaAcctOf (some r)
    · rw [if_pos h]
      simp [h]
    · rw [if_neg h]
      simp [h]

/-- Witness for C5: the indirect-cost account is ineligible even when the
policy lists it in the MTDC-eligible set. -/
theorem isMtdcEligible_exclusion_witness :
    isMtdcEligible "58960"
      (some { fa_rate := none, indirect_costs := some "58960",
              mtdc_eligible_accounts := some ["58960"] }) = false :=
  (isMtdcEligible_exclusion "58960").2.1 _ (by decide)

/-- C6 counterexample: a NaN amount is not rejected — the `amountCents <= 0`
guard is false for NaN, so `computeTransferImpact` returns a computed split
(with NaN propagated) instead of failing. -/
theorem computeTransferImpactJS_accepts_nan :
    computeTransferImpactJS (some mockRates) "53800" .nan .direct_to_dest =
      .ok { source_out := .nan, direct_to_dest := .nan, fa_added := .num 0,
            eligible := false } := by
  unfold computeTransferImpactJS
  simp +decide [isMtdcEligible, fandaAcctOf, mockRates, jsLe, jsAdd, mulRateJS]

/-- C6 amended: `computeTransferImpact` fails with the invalid-amount error
exactly when the requested amount compares `<= 0` under JS semantics (finite
non-positive amounts and -Infinity); NaN and +Infinity amounts are not
rejected and produce a result. -/
theorem computeTransferImpactJS_guard (rates : Option RatesData) (toAcct : String)
    (a : JSNum) (m : TransferMode) :
    (jsLe a (.num 0) = true →
      computeTransferImpactJS rates toAcct a m =
        .error "Amount must be greater than zero") ∧
    (jsLe a (.num 0) = false →
      ∀ e, computeTransferImpactJS rates toAcct a m ≠ .error e) := by
  constructor
  · intro h
    unfold computeTransferImpactJS
    rw [if_pos h]
  · intro h e
    unfold computeTransferImpactJS
    rw [if_neg (by simp [h])]
    cases m <;> simp

/-- Witness for C6: a +Infinity amount is accepted (it never produces the
invalid-amount error). -/
theorem computeTransferImpactJS_guard_witness :
    computeTransferImpactJS (some mockRates) "51110" .inf .budget_total ≠
      .error "Amount must be greater than zero" :=
  (computeTransferImpactJS_guard (some mockRates) "51110" .inf .budget_total).2
    (by decide) "Amount must be greater than zero"

/-- C7: `applyOne` validates fail-fast in the fixed order
forbidden-indirect-transfer, unknown account (source before destination),
identical accounts, encumbrance breach, negative balance: whenever the listed
earlier conditions are absent and the stated condition holds, the stated error
is the one returned. -/
theorem applyOne_failFast (rates : Option RatesData) (baseline snapshot : List BudgetRow)
    (f t : String) (a : ℤ) (m : TransferMode) :
    (f = fandaAcctOf rates ∨ t = fandaAcctOf rates →
      applyOne rates baseline snapshot f t a m =
        .error "Direct transfers to or from F&A are not allowed.") ∧
    (¬(f = fandaAcctOf rates ∨ t = fandaAcctOf rates) →
      List.find? (fun r => r.account = f) (workingRows (fandaAcctOf rates) baseline) = none →
      applyOne rates baseline snapshot f t a m =
        .error ("Unknown source account " ++ f)) ∧
    (∀ fromRow : BudgetRow,
      ¬(f = fandaAcctOf rates ∨ t = fandaAcctOf rates) →
      List.find? (fun r => r.account = f) (workingRows (fandaAcctOf rates) baseline) =
        some fromRow →
      List.find? (fun r => r.account = t) (workingRows (fandaAcctOf rates) baseline) = none →
      applyOne rates baseline snapshot f t a m =
        .error ("Unknown destination account " ++ t)) ∧
    (∀ fromRow toRow : BudgetRow,
      ¬(f = fandaAcctOf rates ∨ t = fandaAcctOf rates) →
      List.find? (fun r => r.account = f) (workingRows (fandaAcctOf rates) baseline) =
        some fromRow →
      List.find? (fun r => r.account = t) (workingRows (fandaAcctOf rates) baseline) =
        some toRow →
      f = t →
      applyOne rates baseline snapshot f t a m = .error "From and To must differ") ∧
    (∀ (fromRow toRow : BudgetRow) (imp : Impact),
      ¬(f = fandaAcctOf rates ∨ t = fandaAcctOf rates) →
      List.find? (fun r => r.account = f) (workingRows (fandaAcctOf rates) baseline) =
        some fromRow →
      List.find? (fun r => r.account = t) (workingRows (fandaAcctOf rates) baseline) =
        some toRow →
      f ≠ t →
      computeTransferImpact rates t a m = .ok imp →
      toCentsN fromRow.proposed_budget - imp.source_out <
        toCentsN (encumbrancesFor f snapshot) →
      applyOne rates baseline snapshot f t a m =
        .error ("Transfer would breach encumbrance on " ++ f)) ∧
    (∀ (fromRow toRow : BudgetRow) (imp : Impact),
      ¬(f = fandaAcctOf rates ∨ t = fandaAcctOf rates) →
      List.find? (fun r => r.account = f) (workingRows (fandaAcctOf rates) baseline) =
        some fromRow →
      List.find? (fun r => r.account = t) (workingRows (fandaAcctOf rates) baseline) =
        some toRow →
      f ≠ t →
      computeTransferImpact rates t a m = .ok imp →
      ¬(toCentsN fromRow.proposed_budget - imp.source_out <
        toCentsN (encumbrancesFor f snapshot)) →
      toCentsN fromRow.proposed_budget - imp.source_out < 0 →
      applyOne rates baseline snapshot f t a m =
        .error ("Transfer would make " ++ f ++ " negative")) := by
  refine ⟨?_, ?_, ?_, ?_, ?_, ?_⟩
  · intro h
    unfold applyOne
    dsimp only
    rw [if_pos h]
  · intro h hf
    unfold applyOne
    dsimp only
    rw [if_neg h, hf]
  · intro fromRow h hf ht
    unfold applyOne
    dsimp only
    rw [if_neg h, hf, ht]
  · intro fromRow toRow h hf ht heq
    unfold applyOne
    dsimp only
    rw [if_neg h, hf, ht]
    dsimp only
    rw [if_pos heq]
  · intro fromRow toRow imp h hf ht hne himp hbr
    unfold applyOne
    dsimp only
    rw [if_neg h, hf, ht]
    dsimp only
    rw [if_neg hne, himp]
    dsimp only
    rw [if_pos hbr]
  · intro fromRow toRow imp h hf ht hne himp hbr hneg
    unfold applyOne
    dsimp only
    rw [if_neg h, hf, ht]
    dsimp only
    rw [if_neg hne, himp]
    dsimp only
    rw [if_neg hbr, if_pos hneg]

/-- Witness for C7: a transfer out of the indirect-cost account fails with the
forbidden-indirect-transfer error before any other check. -/
theorem applyOne_failFast_witness :
    applyOne (some mockRates) mockBudget mockBudget "58960" "52000" 100 .direct_to_dest =
      .error "Direct transfers to or from F&A are not allowed." :=
  (applyOne_failFast (some mockRates) mockBudget mockBudget "58960" "52000" 100
    .direct_to_dest).1 (Or.inl (by decide))

/-
  Frame property: the heap-level engine only writes to freshly allocated
  cells, so the prefix of the store that existed before a call is unchanged.
-/

lemma take_set_of_le {α : Type} (l : List α) (i : ℕ) (x : α) :
    ∀ n : ℕ, n ≤ i → (l.set i x).take n = l.take n := by
  induction l generalizing i with
  | nil => intro n h; simp
  | cons a t ih =>
    intro n h
    cases n with
    | zero => simp
    | succ n =>
      cases i with
      | zero => omega
      | succ i =>
        simp only [List.set, List.take_succ_cons]
        rw [ih i n (by omega)]

lemma foldl_set_take (G : List BudgetRow → ℕ → BudgetRow) :
    ∀ (ids : List ℕ) (st : List BudgetRow) (n : ℕ), (∀ i ∈ ids, n ≤ i) →
      (ids.foldl (fun s i => s.set i (G s i)) st).take n = st.take n := by
  intro ids
  induction ids with
  | nil => intro st n _; rfl
  | cons i ids ih =>
    intro st n h
    simp only [List.foldl_cons]
    rw [ih _ n (fun j hj => h j (List.mem_cons_of_mem _ hj)),
      take_set_of_le _ _ _ n (h i (List.mem_cons_self _ _))]

lemma foldl_set_length (G : List BudgetRow → ℕ → BudgetRow) :
    ∀ (ids : List ℕ) (st : List BudgetRow),
      (ids.foldl (fun s i => s.set i (G s i)) st).length = st.length := by
  intro ids
  induction ids with
  | nil => intro st; rfl
  | cons i ids ih =>
    intro st
    simp only [List.foldl_cons]
    rw [ih, List.length_set]

lemma applyOneHCore_take (rates : Option RatesData) (bIds sIds : List ℕ)
    (f t : String) (a : ℤ) (m : TransferMode) (st2 : List BudgetRow)
    (rowIds2 : List ℕ) (fandaId : ℕ) (n : ℕ)
    (hrow : ∀ i ∈ rowIds2, n ≤ i) (hfa : n ≤ fandaId) :
    ((applyOneHCore rates bIds sIds f t a m st2 rowIds2 fandaId).1).take n = st2.take n := by
  unfold applyOneHCore
  dsimp only
  rcases hf : rowIds2.find? (fun i => (readCell st2 i).account = f) with _ | fromId
  · rfl
  · rcases ht : rowIds2.find? (fun i => (readCell st2 i).account = t) with _ | toId
    · rfl
    · dsimp only
      by_cases h2 : f = t
      · rw [if_pos h2]
      · rw [if_neg h2]
        rcases hi : computeTransferImpact rates t a m with e | imp
        · rfl
        · dsimp only
          split
          · rfl
          · split
            · rfl
            · split
              · dsimp only
                rw [foldl_set_take _ _ _ n hrow,
                  take_set_of_le _ _ _ n hfa,
                  take_set_of_le _ _ _ n (hrow toId (List.mem_of_find?_eq_some ht)),
                  take_set_of_le _ _ _ n (hrow fromId (List.mem_of_find?_eq_some hf))]
              · dsimp only
                rw [foldl_set_take _ _ _ n hrow,
                  take_set_of_le _ _ _ n hfa,
                  take_set_of_le _ _ _ n (hrow toId (List.mem_of_find?_eq_some ht)),
                  take_set_of_le _ _ _ n (hrow fromId (List.mem_of_find?_eq_some hf))]

lemma applyOneHCore_length (rates : Option RatesData) (bIds sIds : List ℕ)
    (f t : String) (a : ℤ) (m : TransferMode) (st2 : List BudgetRow)
    (rowIds2 : List ℕ) (fandaId : ℕ) :
    ((applyOneHCore rates bIds sIds f t a m st2 rowIds2 fandaId).1).length = st2.length := by
  unfold applyOneHCore
  dsimp only
  rcases hf : rowIds2.find? (fun i => (readCell st2 i).account = f) with _ | fromId
  · rfl
  · rcases ht : rowIds2.find? (fun i => (readCell st2 i).account = t) with _ | toId
    · rfl
    · dsimp only
      by_cases h2 : f = t
      · rw [if_pos h2]
      · rw [if_neg h2]
        rcases hi : computeTransferImpact rates t a m with e | imp
        · rfl
        · dsimp only
          split
          · rfl
          · split
            · rfl
            · split <;>
                (dsimp only; rw [foldl_set_length, List.length_set, List.length_set,
                  List.length_set])

lemma range'_ge (s n : ℕ) : ∀ i ∈ List.range' s n, s ≤ i := by
  intro i hi
  rcases List.mem_range'.mp hi with ⟨k, _, hk⟩
  omega

lemma applyOneH_take (rates : Option RatesData) (st : List BudgetRow)
    (bIds sIds : List ℕ) (f t : String) (a : ℤ) (m : TransferMode) :
    ((applyOneH rates st bIds sIds f t a m).1).take st.length = st := by
  unfold applyOneH
  dsimp only
  split
  · exact List.take_length st
  · split
    · next j hj =>
      refine Eq.trans
        (applyOneHCore_take rates bIds sIds f t a m _ _ j st.length ?_ ?_) ?_
      · exact range'_ge _ _
      · exact range'_ge _ _ j (List.mem_of_find?_eq_some hj)
      · exact List.take_left st _
    · refine Eq.trans
        (applyOneHCore_take rates bIds sIds f t a m _ _ _ st.length ?_ ?_) ?_
      · intro i hi
        rcases List.mem_append.mp hi with h | h
        · exact range'_ge _ _ i h
        · rcases List.mem_singleton.mp h with rfl
          rw [List.length_append]
          exact Nat.le_add_right _ _
      · rw [List.length_append]
        exact Nat.le_add_right _ _
      · rw [List.append_assoc]
        exact List.take_left st _

lemma applyOneH_length (rates : Option RatesData) (st : List BudgetRow)
    (bIds sIds : List ℕ) (f t : String) (a : ℤ) (m : TransferMode) :
    st.length ≤ ((applyOneH rates st bIds sIds f t a m).1).length := by
  unfold applyOneH
  dsimp only
  split
  · exact le_refl _
  · split
    · rw [applyOneHCore_length, List.length_append]
      omega
    · rw [applyOneHCore_length, List.length_append, List.length_append]
      omega

lemma projectLoopH_take (rates : Option RatesData) (sIds : List ℕ) :
    ∀ (ts : List TransferItem) (st : List BudgetRow) (wIds : List ℕ)
      (logs : List MappingRow),
      ((projectLoopH rates sIds st wIds logs ts).1).take st.length = st := by
  intro ts
  induction ts with
  | nil => intro st wIds logs; exact List.take_length st
  | cons tr ts ih =>
    intro st wIds logs
    unfold projectLoopH
    rcases ha : applyOneH rates st wIds sIds tr.«from» tr.«to» tr.amount_cents tr.mode
      with ⟨st1, res⟩
    have ht : st1.take st.length = st := by
      have := applyOneH_take rates st wIds sIds tr.«from» tr.«to» tr.amount_cents tr.mode
      rwa [ha] at this
    have hl : st.length ≤ st1.length := by
      have := applyOneH_length rates st wIds sIds tr.«from» tr.«to» tr.amount_cents tr.mode
      rwa [ha] at this
    rcases res with e | pr
    · exact ht
    · rcases pr with ⟨ids, log⟩
      dsimp only
      have h2 := ih st1 ids (logs ++ [log])
      calc ((projectLoopH rates sIds st1 ids (logs ++ [log]) ts).1).take st.length
          = (((projectLoopH rates sIds st1 ids (logs ++ [log]) ts).1).take st1.length).take
              st.length := by
            rw [List.take_take, min_eq_left hl]
        _ = st1.take st.length := by rw [h2]
        _ = st := ht

/-- C8: neither `applyOne` nor `projectWithTransfers` mutates its inputs: in
the heap-level rendering, where row objects are store cells and the engine's
object mutations are explicit cell writes, every cell that existed before a
call — baseline rows and snapshot rows alike — holds exactly its old value
afterwards, whether the call succeeds or throws at any point; all writes land
in freshly allocated cells. -/
theorem engine_never_mutates_inputs :
    (∀ (rates : Option RatesData) (st : List BudgetRow) (baselineIds snapshotIds : List ℕ)
        (f t : String) (a : ℤ) (m : TransferMode),
        ((applyOneH rates st baselineIds snapshotIds f t a m).1).take st.length = st) ∧
    (∀ (rates : Option RatesData) (st : List BudgetRow) (baselineIds snapshotIds : List ℕ)
        (transfers : List TransferItem),
        ((projectWithTransfersH rates st baselineIds snapshotIds transfers).1).take
          st.length = st) :=
  ⟨applyOneH_take,
   fun rates st bIds sIds ts => projectLoopH_take rates sIds ts st bIds []⟩

/-
  Structure of the rows returned by a successful `applyOne`.
-/

lemma updateFirst_append_of_not (p : BudgetRow → Bool) (f : BudgetRow → BudgetRow)
    (l : List BudgetRow) (x : BudgetRow) (hx : p x = false) :
    updateFirst p f (l ++ [x]) = updateFirst p f l ++ [x] := by
  induction l with
  | nil => simp [updateFirst, hx]
  | cons a t ih => by_cases hp : p a <;> simp [updateFirst, hp, ih]

lemma updateFirst_append_last (p : BudgetRow → Bool) (f : BudgetRow → BudgetRow)
    (l : List BudgetRow) (x : BudgetRow) (hl : ∀ r ∈ l, p r = false) (hx : p x = true) :
    updateFirst p f (l ++ [x]) = l ++ [f x] := by
  induction l with
  | nil => simp [updateFirst, hx]
  | cons a t ih =>
    have ha := hl a (List.mem_cons_self _ _)
    simp only [List.cons_append, updateFirst, ha, Bool.false_eq_true, if_false,
      List.cons.injEq, true_and]
    exact ih (fun r hr => hl r (List.mem_cons_of_mem _ hr))

lemma updateFirst_map_account (p : BudgetRow → Bool) (f : BudgetRow → BudgetRow)
    (hacc : ∀ r, (f r).account = r.account) :
    ∀ l : List BudgetRow,
      (updateFirst p f l).map (fun r => r.account) = l.map (fun r => r.account) := by
  intro l
  induction l with
  | nil => rfl
  | cons a t ih => by_cases hp : p a <;> simp [updateFirst, hp, ih, hacc]

lemma map_account_map (g : BudgetRow → BudgetRow)
    (hacc : ∀ r, (g r).account = r.account) (l : List BudgetRow) :
    (l.map g).map (fun r => r.account) = l.map (fun r => r.account) := by
  rw [List.map_map]
  have he : ((fun r : BudgetRow => r.account) ∘ g) = fun r => r.account := funext hacc
  rw [he]

lemma accounts_pred_transfer (P : String → Prop) (l1 l2 : List BudgetRow)
    (hmap : l1.map (fun r => r.account) = l2.map (fun r => r.account))
    (h : ∀ r ∈ l2, P r.account) : ∀ r ∈ l1, P r.account := by
  intro r hr
  have hm : r.account ∈ l1.map (fun r => r.account) := List.mem_map_of_mem _ hr
  rw [hmap] at hm
  rcases List.mem_map.mp hm with ⟨r2, hr2, he⟩
  rw [← he]
  exact h r2 hr2

lemma exists_account_transfer (a : String) (l1 l2 : List BudgetRow)
    (hmap : l1.map (fun r => r.account) = l2.map (fun r => r.account))
    (h : ∃ r ∈ l2, r.account = a) : ∃ r ∈ l1, r.account = a := by
  rcases h with ⟨r2, hr2, he⟩
  have hm : a ∈ l1.map (fun r => r.account) := by
    rw [hmap]
    rw [← he]
    exact List.mem_map_of_mem _ hr2
  rcases List.mem_map.mp hm with ⟨r1, hr1, he1⟩
  exact ⟨r1, hr1, he1⟩

lemma workingRows_no_summary (fandaAcct : String) (l : List BudgetRow)
    (hfa : fandaAcct ≠ "SUMMARY") :
    ∀ r ∈ workingRows fandaAcct l, r.account ≠ "SUMMARY" := by
  unfold workingRows
  dsimp only
  intro r hr
  split at hr
  · rcases List.mem_filter.mp hr with ⟨_, hp⟩
    exact of_decide_eq_true hp
  · rcases List.mem_append.mp hr with h | h
    · rcases List.mem_filter.mp h with ⟨_, hp⟩
      exact of_decide_eq_true hp
    · rcases List.mem_singleton.mp h with rfl
      exact hfa

lemma workingRows_has_fanda (fandaAcct : String) (l : List BudgetRow) :
    ∃ r ∈ workingRows fandaAcct l, r.account = fandaAcct := by
  unfold workingRows
  dsimp only
  split
  · next hs =>
    rcases Option.isSome_iff_exists.mp hs with ⟨r0, hr0⟩
    have hp := List.find?_some hr0
    exact ⟨r0, List.mem_of_find?_eq_some hr0, of_decide_eq_true hp⟩
  · exact ⟨fandaDefaultRow fandaAcct, List.mem_append_right _ (List.mem_singleton_self _), rfl⟩

lemma all_account_ne_updateFirst (s : String) (p : BudgetRow → Bool)
    (f : BudgetRow → BudgetRow) (hacc : ∀ r, (f r).account = r.account)
    (l : List BudgetRow) (h : ∀ r ∈ l, r.account ≠ s) :
    ∀ r ∈ updateFirst p f l, r.account ≠ s :=
  accounts_pred_transfer (fun x => x ≠ s) _ l (updateFirst_map_account p f hacc l) h

lemma rows5_map_account (imp : Impact) (f t fanda : String) (W : List BudgetRow) :
    (List.map (fun r => { r with change := some (r.proposed_budget - r.current_budget) })
      (updateFirst (fun r => r.account = fanda)
        (fun r => { r with proposed_budget :=
          r.proposed_budget + (jsNumber (fromCents imp.fa_added)).getD 0 })
        (updateFirst (fun r => r.account = t)
          (fun r => { r with proposed_budget :=
            r.proposed_budget + (jsNumber (fromCents imp.direct_to_dest)).getD 0 })
          (updateFirst (fun r => r.account = f)
            (fun r => { r with proposed_budget :=
              r.proposed_budget - (jsNumber (fromCents imp.source_out)).getD 0 })
            W)))).map (fun r => r.account) = W.map (fun r => r.account) := by
  rw [map_account_map, updateFirst_map_account, updateFirst_map_account,
    updateFirst_map_account] <;> exact fun r => rfl

/-- C9 counterexample: with a policy whose designated indirect-cost account is
"SUMMARY", a successful `applyOne` returns a row list that does contain a row
with account "SUMMARY" (the freshly created F&A row). -/
theorem applyOne_summary_row_counterexample :
    applyOne (some sRates) sBudget sBudget "A" "B" 1 .direct_to_dest = .ok (sRowsOut, sLog) ∧
    sRowsOut.map (fun r => r.account) = ["A", "B", "SUMMARY"] :=
  ⟨applyOne_s, by decide⟩

/-- C9 amended: whenever `applyOne` succeeds, the returned rows contain no
"SUMMARY" row provided the designated indirect-cost account is not itself
"SUMMARY" (the created F&A row carries the designated account name); the rows
always contain a row for the designated indirect-cost account; and when that
account is absent from the non-SUMMARY baseline rows, the returned rows
contain an F&A row created with description "F&A", current_budget 0, and
proposed_budget still 0 whenever the credited indirect amount is 0 (as for an
ineligible destination). -/
theorem applyOne_result_rows (rates : Option RatesData) (baseline snapshot : List BudgetRow)
    (f t : String) (a : ℤ) (m : TransferMode) (rows : List BudgetRow) (log : MappingRow)
    (h : applyOne rates baseline snapshot f t a m = .ok (rows, log)) :
    (fandaAcctOf rates ≠ "SUMMARY" → ∀ r ∈ rows, r.account ≠ "SUMMARY") ∧
    (∃ r ∈ rows, r.account = fandaAcctOf rates) ∧
    ((baseline.filter (fun r => r.account ≠ "SUMMARY")).find?
        (fun r => r.account = fandaAcctOf rates) = none →
      ∃ r ∈ rows, r.account = fandaAcctOf rates ∧ r.description = "F&A" ∧
        r.current_budget = 0 ∧
        (log.fa_added_to_fanda_cents = 0 → r.proposed_budget = 0)) := by
  unfold applyOne at h
  dsimp only at h
  by_cases h1 : f = fandaAcctOf rates ∨ t = fandaAcctOf rates
  · rw [if_pos h1] at h
    exact absurd h (by simp)
  · rw [if_neg h1] at h
    rcases hf : List.find? (fun r => r.account = f) (workingRows (fandaAcctOf rates) baseline)
      with _ | fromRow <;> rw [hf] at h
    · exact absurd h (by simp)
    · rcases ht : List.find? (fun r => r.account = t) (workingRows (fandaAcctOf rates) baseline)
        with _ | toRow <;> rw [ht] at h
      · exact absurd h (by simp)
      · dsimp only at h
        by_cases h2 : f = t
        · rw [if_pos h2] at h
          exact absurd h (by simp)
        · rw [if_neg h2] at h
          rcases hi : computeTransferImpact rates t a m with e | imp <;> rw [hi] at h
          · exact absurd h (by simp)
          · dsimp only at h
            by_cases h3 : toCentsN fromRow.proposed_budget - imp.source_out <
                toCentsN (encumbrancesFor f snapshot)
            · rw [if_pos h3] at h
              exact absurd h (by simp)
            · rw [if_neg h3] at h
              by_cases h4 : toCentsN fromRow.proposed_budget - imp.source_out < 0
              · rw [if_pos h4] at h
                exact absurd h (by simp)
              · rw [if_neg h4] at h
                split at h
                · exact absurd h (by simp)
                · rw [Except.ok.injEq, Prod.mk.injEq] at h
                  obtain ⟨hrows, hlog⟩ := h
                  subst hrows
                  subst hlog
                  refine ⟨?_, ?_, ?_⟩
                  · intro hS
                    exact accounts_pred_transfer (fun x => x ≠ "SUMMARY") _
                      (workingRows (fandaAcctOf rates) baseline)
                      (rows5_map_account imp f t (fandaAcctOf rates) _)
                      (workingRows_no_summary _ _ hS)
                  · exact exists_account_transfer _ _
                      (workingRows (fandaAcctOf rates) baseline)
                      (rows5_map_account imp f t (fandaAcctOf rates) _)
                      (workingRows_has_fanda _ _)
                  · intro habs
                    have hwr : workingRows (fandaAcctOf rates) baseline =
                        baseline.filter (fun r => r.account ≠ "SUMMARY") ++
                          [fandaDefaultRow (fandaAcctOf rates)] := by
                      unfold workingRows
                      dsimp only
                      rw [habs]
                      rfl
                    rw [hwr]
                    have hx1 : (fun r : BudgetRow => decide (r.account = f))
                        (fandaDefaultRow (fandaAcctOf rates)) = false := by
                      refine decide_eq_false ?_
                      exact fun he => h1 (Or.inl he.symm)
                    have hx2 : (fun r : BudgetRow => decide (r.account = t))
                        (fandaDefaultRow (fandaAcctOf rates)) = false := by
                      refine decide_eq_false ?_
                      exact fun he => h1 (Or.inr he.symm)
                    rw [updateFirst_append_of_not _ _ _ _ hx1,
                      updateFirst_append_of_not _ _ _ _ hx2]
                    have hbase : ∀ r ∈ baseline.filter (fun r => r.account ≠ "SUMMARY"),
                        r.account ≠ fandaAcctOf rates := by
                      intro r hr
                      have h5 := List.find?_eq_none.mp habs r hr
                      exact fun he => h5 (decide_eq_true he)
                    have hall : ∀ r ∈ updateFirst (fun r => r.account = t)
                        (fun r => { r with proposed_budget :=
                          r.proposed_budget + (jsNumber (fromCents imp.direct_to_dest)).getD 0 })
                        (updateFirst (fun r => r.account = f)
                          (fun r => { r with proposed_budget :=
                            r.proposed_budget - (jsNumber (fromCents imp.source_out)).getD 0 })
                          (baseline.filter (fun r => r.account ≠ "SUMMARY"))),
                        r.account ≠ fandaAcctOf rates := by
                      refine all_account_ne_updateFirst _ _
                        (fun r => { r with proposed_budget :=
                          r.proposed_budget + (jsNumber (fromCents imp.direct_to_dest)).getD 0 })
                        (fun r => rfl) _ ?_
                      exact all_account_ne_updateFirst _ _
                        (fun r => { r with proposed_budget :=
                          r.proposed_budget - (jsNumber (fromCents imp.source_out)).getD 0 })
                        (fun r => rfl) _ hbase
                    rw [updateFirst_append_last _ _ _ _
                      (fun r hr => decide_eq_false (hall r hr)) (by simp [fandaDefaultRow])]
                    rw [List.map_append]
                    refine ⟨{ account := fandaAcctOf rates,
                              description := "F&A",
                              current_budget := 0,
                              proposed_budget := 0 + (jsNumber (fromCents imp.fa_added)).getD 0,
                              encumbrances := some 0,
                              change := some (0 + (jsNumber (fromCents imp.fa_added)).getD 0 - 0) },
                      List.mem_append_right _ ?_, rfl, rfl, rfl, ?_⟩
                    · simp [fandaDefaultRow]
                    · intro hfa0
                      dsimp only at hfa0
                      dsimp only
                      rw [hfa0, jn0]
                      norm_num

/-- Witness for C9 amended: a successful transfer over a baseline with no
indirect-cost row yields a created F&A row with zero current and (since the
destination is ineligible, so no indirect amount is credited) zero proposed
budget. -/
theorem applyOne_result_rows_witness :
    ∃ r ∈ w9RowsOut, r.account = fandaAcctOf (some mockRates) ∧ r.description = "F&A" ∧
      r.current_budget = 0 ∧
      (w9Log.fa_added_to_fanda_cents = 0 → r.proposed_budget = 0) :=
  (applyOne_result_rows (some mockRates) w9Budget w9Budget "52000" "53800" 1
    .direct_to_dest w9RowsOut w9Log applyOne_w9).2.2 (by decide)

/-- C10: when the source account is absent from the encumbrance snapshot, or
present with no encumbrances field, `applyOne` treats its encumbrance as zero:
`encumbrancesFor` returns 0, whose cent value is 0, so the encumbrance
comparison `fromAfter < toCents(enc)` is exactly the negativity test
`fromAfter < 0` — and consequently the separate negative-balance error is
unreachable for such a source (the breach check fires first). -/
theorem encumbrance_default_zero (fromAcct : String) (snapshot : List BudgetRow)
    (h : snapshot.find? (fun r => r.account = fromAcct) = none ∨
      ∃ row, snapshot.find? (fun r => r.account = fromAcct) = some row ∧
        row.encumbrances = none) :
    encumbrancesFor fromAcct snapshot = 0 ∧
    toCentsN (encumbrancesFor fromAcct snapshot) = 0 ∧
    (∀ x : ℤ, x < toCentsN (encumbrancesFor fromAcct snapshot) ↔ x < 0) ∧
    (∀ (rates : Option RatesData) (baseline : List BudgetRow) (toAcct : String)
        (a : ℤ) (m : TransferMode),
        applyOne rates baseline snapshot fromAcct toAcct a m ≠
          .error ("Transfer would make " ++ fromAcct ++ " negative")) := by
  have henc : encumbrancesFor fromAcct snapshot = 0 := by
    unfold encumbrancesFor
    rcases h with h | ⟨row, hfind, hnone⟩
    · rw [h]
    · rw [hfind]
      dsimp only
      rw [hnone]
      rfl
  have htc : toCentsN (encumbrancesFor fromAcct snapshot) = 0 := by rw [henc]; exact tc0
  refine ⟨henc, htc, fun x => by rw [htc], ?_⟩
  intro rates baseline toAcct a m hcontra
  unfold applyOne at hcontra
  dsimp only at hcontra
  by_cases h1 : fromAcct = fandaAcctOf rates ∨ toAcct = fandaAcctOf rates
  · rw [if_pos h1] at hcontra
    exact absurd (Except.error.inj hcontra)
      (string_ne_of_nth _ _ 0 (by rw [negMsg_nth fromAcct 0 (by norm_num)]; decide))
  · rw [if_neg h1] at hcontra
    rcases hf : List.find? (fun r => r.account = fromAcct)
        (workingRows (fandaAcctOf rates) baseline) with _ | fromRow <;> rw [hf] at hcontra
    · refine string_ne_of_nth _ _ 0 ?_ (Except.error.inj hcontra)
      rw [data_nth_append_left _ _ 0 (by decide), negMsg_nth fromAcct 0 (by norm_num)]
      decide
    · rcases ht : List.find? (fun r => r.account = toAcct)
          (workingRows (fandaAcctOf rates) baseline) with _ | toRow <;> rw [ht] at hcontra
      · refine string_ne_of_nth _ _ 0 ?_ (Except.error.inj hcontra)
        rw [data_nth_append_left _ _ 0 (by decide), negMsg_nth fromAcct 0 (by norm_num)]
        decide
      · dsimp only at hcontra
        by_cases h2 : fromAcct = toAcct
        · rw [if_pos h2] at hcontra
          exact absurd (Except.error.inj hcontra)
            (string_ne_of_nth _ _ 0 (by rw [negMsg_nth fromAcct 0 (by norm_num)]; decide))
        · rw [if_neg h2] at hcontra
          rcases hi : computeTransferImpact rates toAcct a m with e | imp <;>
            rw [hi] at hcontra
          · have h5 := Except.error.inj hcontra
            rw [computeTransferImpact_error_msg hi] at h5
            exact string_ne_of_nth _ _ 0
              (by rw [negMsg_nth fromAcct 0 (by norm_num)]; decide) h5
          · dsimp only at hcontra
            rw [htc] at hcontra
            by_cases h3 : toCentsN fromRow.proposed_budget - imp.source_out < 0
            · rw [if_pos h3] at hcontra
              refine string_ne_of_nth _ _ 15 ?_ (Except.error.inj hcontra)
              rw [data_nth_append_left _ _ 15 (by decide), negMsg_nth fromAcct 15 (by norm_num)]
              decide
            · rw [if_neg h3, if_neg h3] at hcontra
              split at hcontra
              · exact absurd (Except.error.inj hcontra)
                  (string_ne_of_nth _ _ 1
                    (by rw [negMsg_nth fromAcct 1 (by norm_num)]; decide))
              · exact absurd hcontra (by simp)

/-- Witness for C10: an empty snapshot has no row for the source, so the
encumbrance defaults to zero. -/
theorem encumbrance_default_zero_witness :
    encumbrancesFor "53800" [] = 0 ∧ toCentsN (encumbrancesFor "53800" []) = 0 :=
  ⟨(encumbrance_default_zero "53800" [] (Or.inl rfl)).1,
   (encumbrance_default_zero "53800" [] (Or.inl rfl)).2.1⟩
